import Mathlib

/-!
Shallow embedding of `l4casadi/l4casadi.py` (class `L4CasADi`).

The Python class wraps a PyTorch model so that CasADi can call it as an
external native function.  The pipeline: probe shapes, export TorchScript
traces (forward / jacobian / hessian), render a C++ template, invoke gcc,
and lazily load the shared library as a `cs.external` function.

External collaborators (torch tracing, `ts_compile`, `render_casadi_c_template`,
gcc, `cs.external`) are modelled through an environment `Env` of booleans
saying which external operation would succeed, and the side effects the
pipeline performs are collected into an explicit effect list `List Eff`,
in program order.  Exceptions are modelled with `Except PyErr` /
`Option PyErr`.  Tensors are modelled by their shape together with a fill
value (the pipeline only ever builds zero-filled probe tensors and reads
shapes of model outputs).
-/

deriving instance DecidableEq for Except

set_option maxRecDepth 4000

namespace L4C

/-- A concrete tensor, modelled by its shape and a constant fill value:
the pipeline only ever constructs zero-filled probe tensors and only ever
inspects the `shape` of the model's output. -/
structure Tensor where
  shape : List Nat
  fill : Int
deriving Repr, DecidableEq

/-- `torch.zeros(shape)`. -/
def torch_zeros (s : List Nat) : Tensor := ⟨s, 0⟩

/-- Which serialized trace a save attempt concerns. -/
inductive TK
  | fwd
  | jac
  | hess
deriving Repr, DecidableEq, Fintype

/-- Exceptions raised by the pipeline (Python exception classes flattened
to the places in `l4casadi.py` that raise or propagate them). -/
inductive PyErr
  /-- `ValueError("For batched PyTorch models only vector inputs are allowed.")`
  raised at the top of `forward`. -/
  | valueError
  /-- `RuntimeError('L4CasADi model has not been built yet. Call build first.')`
  raised by `_load_built_library_as_external_cs_fun`. -/
  | notBuiltYet
  /-- `Exception('Compilation failed! ...')` raised by `compile` on a
  non-zero gcc exit status. -/
  | compilationFailure
  /-- exception escaping `torch.jit.trace(self.model, d_inp).save(...)`
  in `export_torch_traces` (mandatory forward trace). -/
  | forwardTraceError
  /-- exception escaping `self._trace_jac_model(d_inp)` in
  `export_torch_traces` (the call is not guarded by any `try`). -/
  | jacTraceError
  /-- exception escaping `cs.external(...)` in
  `_load_built_library_as_external_cs_fun`. -/
  | loadError
deriving Repr, DecidableEq

/-- Observable side effects of the pipeline, in program order. -/
inductive Eff
  /-- `os.makedirs(self.build_dir)` in `maybe_make_generation_dir`. -/
  | mkdir
  /-- `torch.jit.trace(model, d_inp).save(path)` attempted (a traced,
  not scripted, serialization) for trace `k`. -/
  | attemptTraceSave (k : TK)
  /-- `ts_compile(model).save(path)` attempted (a scripted serialization)
  for trace `k`. -/
  | attemptScriptSave (k : TK)
  /-- the `<name>_forward.pt` file was written. -/
  | saveForwardPt
  /-- `print('Jacobian trace could not be generated. ...')` in `generate`. -/
  | warnNoJac
  /-- `print('Hessian trace could not be generated. ...')` in `generate`. -/
  | warnNoHess
  /-- naive path of `build`: `cs.Function(...).generate(f'{name}.cpp')`
  followed by `shutil.move` into the build dir. -/
  | casadiGenCpp
  /-- `render_casadi_c_template(variables, out_file)` in
  `_generate_cpp_function_template`. -/
  | renderCpp
  /-- `os.system(gcc ...)` in `compile`; `linkL4casadi` is true iff the
  command contains `-ll4casadi` (i.e. iff not naive). -/
  | runGcc (linkL4casadi : Bool)
  /-- `cs.external(name, lib_path)` attempted in
  `_load_built_library_as_external_cs_fun`. -/
  | loadLib
deriving Repr, DecidableEq

/-- The behaviour of the external world: which external operation would
succeed if the pipeline attempts it. -/
structure Env where
  /-- the build directory already exists (`os.path.exists`). -/
  buildDirExists : Bool
  /-- `torch.jit.trace(self.model, d_inp).save(forward.pt)` succeeds. -/
  fwdTraceOk : Bool
  /-- `self._trace_jac_model(d_inp)` (`make_fx(functionalize(jacrev(model)))`)
  succeeds. -/
  jacTraceOk : Bool
  /-- `ts_compile(jac_model).save(...)` succeeds. -/
  jacScriptOk : Bool
  /-- `torch.jit.trace(jac_model, d_inp).save(...)` succeeds. -/
  jacTraceSaveOk : Bool
  /-- `self._trace_hess_model(d_inp)` succeeds. -/
  hessTraceOk : Bool
  /-- `ts_compile(hess_model).save(...)` succeeds. -/
  hessScriptOk : Bool
  /-- `torch.jit.trace(hess_model, d_inp).save(...)` succeeds. -/
  hessTraceSaveOk : Bool
  /-- the `os.system(gcc ...)` invocation exits with status 0. -/
  gccOk : Bool
  /-- `cs.external(name, lib_path)` succeeds. -/
  loadOk : Bool
deriving Repr, DecidableEq

instance : Fintype Env :=
  Fintype.ofSurjective
    (fun t : Bool × Bool × Bool × Bool × Bool × Bool × Bool × Bool × Bool × Bool =>
      Env.mk t.1 t.2.1 t.2.2.1 t.2.2.2.1 t.2.2.2.2.1 t.2.2.2.2.2.1
        t.2.2.2.2.2.2.1 t.2.2.2.2.2.2.2.1 t.2.2.2.2.2.2.2.2.1 t.2.2.2.2.2.2.2.2.2)
    (fun e => ⟨⟨e.buildDirExists, e.fwdTraceOk, e.jacTraceOk, e.jacScriptOk,
      e.jacTraceSaveOk, e.hessTraceOk, e.hessScriptOk, e.hessTraceSaveOk,
      e.gccOk, e.loadOk⟩, rfl⟩)

/-- An all-succeeding environment, to be overridden field-wise in witnesses. -/
def Env.allOk : Env :=
  ⟨true, true, true, true, true, true, true, true, true, true⟩

/-- State of one `L4CasADi` instance: the constructor-time configuration
(`__init__`) together with the mutable fields `_built` and `_cs_fun`.
The wrapped PyTorch model is abstracted to a function on tensors. -/
structure L4CasADi where
  /-- the wrapped model; only called on concrete zero probes, and only its
  output `shape` is read. -/
  model : Tensor → Tensor
  /-- `self.naive` (the wrapped module is a `NaiveL4CasADiModule`). -/
  naive : Bool
  /-- `self.has_batch` (`model_expects_batch_dim`). -/
  has_batch : Bool
  /-- `self.device` as a string. -/
  device : String
  /-- `self.name`. -/
  name : String
  /-- `self.build_dir` (posix path, no trailing slash; `.absolute()` is not
  modelled — path resolution does not affect any claim). -/
  build_dir : String
  /-- `self._model_search_path`. -/
  model_search_path : Option String
  /-- `self._with_jacobian`. -/
  with_jacobian : Bool
  /-- `self._with_hessian`. -/
  with_hessian : Bool
  /-- `self._cs_fun` (`None` until the library is loaded). -/
  cs_fun : Option Unit
  /-- `self._built`. -/
  built : Bool

/-- Values put into the template substitution dictionary `gen_params`:
Python `str` values and Python `int` values. -/
inductive GenValue
  | str (s : String)
  | nat (n : Nat)
deriving Repr, DecidableEq

/-- `_jit_compile_and_save(model, file_path, dummy_inp)`: try scripting
(`ts_compile(model).save`), on any failure try tracing
(`torch.jit.trace(model, dummy_inp).save`), return False only when both
fail; never raises.  Returns the save attempts made (in order) and the
Python return value. -/
def jit_compile_and_save (k : TK) (scriptOk traceOk : Bool) :
    List Eff × Bool :=
  if scriptOk then ([.attemptScriptSave k], true)
  else if traceOk then ([.attemptScriptSave k, .attemptTraceSave k], true)
  else ([.attemptScriptSave k, .attemptTraceSave k], false)

/-- `export_torch_traces(rows, cols)`: write the mandatory forward trace via
`torch.jit.trace(self.model, d_inp).save(...)` (unguarded — any failure
raises), then, if requested, trace the Jacobian (unguarded — any failure
raises) and save it via `_jit_compile_and_save`, then, if requested, trace
the Hessian inside `try/except pass` and save it via `_jit_compile_and_save`
only when tracing succeeded.  Returns `(exported_jacrev, exported_hess)`. -/
def export_torch_traces (env : Env) (withJac withHess : Bool) :
    List Eff × Except PyErr (Bool × Bool) :=
  if !env.fwdTraceOk then
    ([.attemptTraceSave .fwd], .error .forwardTraceError)
  else if withJac && !env.jacTraceOk then
    ([.attemptTraceSave .fwd, .saveForwardPt], .error .jacTraceError)
  else
    let e0 : List Eff := [.attemptTraceSave .fwd, .saveForwardPt]
    let jac : List Eff × Bool :=
      if withJac then jit_compile_and_save .jac env.jacScriptOk env.jacTraceSaveOk
      else ([], false)
    let hess : List Eff × Bool :=
      if withHess then
        if env.hessTraceOk then
          jit_compile_and_save .hess env.hessScriptOk env.hessTraceSaveOk
        else ([], false)
      else ([], false)
    (e0 ++ jac.1 ++ hess.1, .ok (jac.2, hess.2))

/-- The fixed key order of the `gen_params` dictionary in
`_generate_cpp_function_template`. -/
def genParamKeys : List String :=
  ["model_path", "device", "name", "rows_in", "cols_in",
   "rows_out", "cols_out", "has_jac", "has_hess", "model_expects_batch_dim"]

/-- First half of `_generate_cpp_function_template(rows, cols, has_jac,
has_hess)`: probe the model output shape on a zero tensor (batched probe
`torch.zeros(1, rows).to(device)` when `has_batch`, else
`torch.zeros(rows, cols).to(device)`; `.to(device)` does not affect the
shape and is not modelled): `rows_out = out.shape[-1], cols_out = 1` in
batch mode; otherwise `rows_out = out_shape[0], cols_out = 1` for a
1-dimensional output and `rows_out, cols_out = out_shape[-2:]` for 2 or
more dimensions. -/
def probe_out_dims (s : L4CasADi) (rows cols : Nat) : Nat × Nat :=
  if s.has_batch then
    (((s.model (torch_zeros [1, rows])).shape.getLast?).getD 0, 1)
  else
    let out_shape := (s.model (torch_zeros [rows, cols])).shape
    if out_shape.length == 1 then
      (out_shape.headD 0, 1)
    else
      (out_shape.reverse.getD 1 0, out_shape.reverse.getD 0 0)

/-- `_generate_cpp_function_template` continued: the `gen_params` dictionary
and the render target `<build_dir>/<name>.cpp`. -/
def generate_cpp_function_template (s : L4CasADi)
    (rows cols : Nat) (has_jac has_hess : Bool) :
    List (String × GenValue) × String :=
  let outDims : Nat × Nat := probe_out_dims s rows cols
  let model_path : String :=
    match s.model_search_path with
    | none => s.build_dir
    | some p => p
  ([("model_path", .str model_path),
    ("device", .str s.device),
    ("name", .str s.name),
    ("rows_in", .nat rows),
    ("cols_in", .nat cols),
    ("rows_out", .nat outDims.1),
    ("cols_out", .nat outDims.2),
    ("has_jac", .str (if has_jac then "true" else "false")),
    ("has_hess", .str (if has_hess then "true" else "false")),
    ("model_expects_batch_dim", .str (if s.has_batch then "true" else "false"))],
   s.build_dir ++ "/" ++ s.name ++ ".cpp")

/-- `generate(inp)`: export the torch traces (any exception propagates),
print a diagnostic for each unavailable requested derivative, then render
the C++ template.  Returns the rendered substitution dictionary and output
path on success. -/
def generate (s : L4CasADi) (env : Env) (rows cols : Nat) :
    List Eff × Except PyErr (List (String × GenValue) × String) :=
  let ex := export_torch_traces env s.with_jacobian s.with_hessian
  match ex.2 with
  | .error e => (ex.1, .error e)
  | .ok (has_jac, has_hess) =>
    let w1 : List Eff := if !has_jac && s.with_jacobian then [.warnNoJac] else []
    let w2 : List Eff := if !has_hess && s.with_hessian then [.warnNoHess] else []
    (ex.1 ++ w1 ++ w2 ++ [.renderCpp],
     .ok (generate_cpp_function_template s rows cols has_jac has_hess))

/-- `compile()`: invoke gcc via `os.system`; the command links
`-ll4casadi` iff not naive; a non-zero exit status raises. -/
def compileStep (naive : Bool) (gccOk : Bool) : List Eff × Option PyErr :=
  ([.runGcc (!naive)], if gccOk then none else some .compilationFailure)

/-- `maybe_make_generation_dir()`. -/
def maybe_make_generation_dir (env : Env) : List Eff :=
  if env.buildDirExists then [] else [.mkdir]

/-- `build(inp)`: make the build dir, generate the C++ source (via casadi
codegen in naive mode, else via `generate`), compile it, and set
`self._built = True`.  An exception from any step propagates and leaves
the state unchanged. -/
def build (s : L4CasADi) (env : Env) (inpShape : Nat × Nat) :
    L4CasADi × List Eff × Option PyErr :=
  let eDir := maybe_make_generation_dir env
  let gen : List Eff × Option PyErr :=
    if s.naive then ([.casadiGenCpp], none)
    else
      match (generate s env inpShape.1 inpShape.2).2 with
      | .error e => ((generate s env inpShape.1 inpShape.2).1, some e)
      | .ok _ => ((generate s env inpShape.1 inpShape.2).1, none)
  match gen.2 with
  | some e => (s, eDir ++ gen.1, some e)
  | none =>
    let c := compileStep s.naive env.gccOk
    match c.2 with
    | some e => (s, eDir ++ gen.1 ++ c.1, some e)
    | none => ({s with built := true}, eDir ++ gen.1 ++ c.1, none)

/-- `_load_built_library_as_external_cs_fun()`: raise `RuntimeError` if not
built, else bind `cs.external(name, lib path)` into `self._cs_fun`. -/
def load_built_library (s : L4CasADi) (env : Env) :
    L4CasADi × List Eff × Option PyErr :=
  if !s.built then (s, [], some .notBuiltYet)
  else if env.loadOk then ({s with cs_fun := some ()}, [.loadLib], none)
  else (s, [.loadLib], some .loadError)

/-- `forward(inp)`: reject non-vector inputs for batched models, evaluate
the model directly in naive mode, otherwise build on first use, load the
shared library on first use, and call the external function. -/
def forward (s : L4CasADi) (env : Env) (inpShape : Nat × Nat) :
    L4CasADi × List Eff × Except PyErr Unit :=
  if s.has_batch && inpShape.2 != 1 then
    (s, [], .error .valueError)
  else if s.naive then
    (s, [], .ok ())
  else
    let b : L4CasADi × List Eff × Option PyErr :=
      if !s.built then build s env inpShape else (s, [], none)
    match b.2.2 with
    | some e => (b.1, b.2.1, .error e)
    | none =>
      match b.1.cs_fun with
      | some _ => (b.1, b.2.1, .ok ())
      | none =>
        let l := load_built_library b.1 env
        match l.2.2 with
        | some e => (l.1, b.2.1 ++ l.2.1, .error e)
        | none => (l.1, b.2.1 ++ l.2.1, .ok ())

/-- A simple concrete model for witnesses: identity on tensors. -/
def idModel : Tensor → Tensor := fun t => t

/-- A concrete non-naive, batched, freshly constructed instance
(all `__init__` defaults). -/
def s0 : L4CasADi :=
  { model := idModel
    naive := false
    has_batch := true
    device := "cpu"
    name := "l4casadi_f"
    build_dir := "./_l4c_generated"
    model_search_path := none
    with_jacobian := true
    with_hessian := true
    cs_fun := none
    built := false }

/-- A concrete naive instance. -/
def sNaive : L4CasADi := { s0 with naive := true }

/-- Extraction of the rendered output dims from the probed output shape
alone: `shape[-1], 1` in batch mode; `shape[0], 1` for a 1-dimensional
output; the last two dimensions otherwise.  Used to state that
`probe_out_dims` depends on the model only through the shape of its output
on the zero probe. -/
def probeDimsSpec (has_batch : Bool) (os : List Nat) : Nat × Nat :=
  if has_batch then (os.getLast?.getD 0, 1)
  else if os.length == 1 then (os.headD 0, 1)
  else (os.reverse.getD 1 0, os.reverse.getD 0 0)

/-- A concrete model whose output is 1-dimensional of length 5. -/
def vecModel : Tensor → Tensor := fun _ => torch_zeros [5]

/-- A concrete model whose output is 3-dimensional of shape 4 x 3 x 2. -/
def matModel : Tensor → Tensor := fun _ => torch_zeros [4, 3, 2]

/-- Non-batched instance wrapping `vecModel`. -/
def sVec : L4CasADi := { s0 with has_batch := false, model := vecModel }

/-- Non-batched instance wrapping `matModel`. -/
def sMat : L4CasADi := { s0 with has_batch := false, model := matModel }

/-- Recognizer for toolchain-invocation effects. -/
def isGcc : Eff → Bool
  | .runGcc _ => true
  | _ => false

/-- Environment where only Jacobian tracing (`_trace_jac_model`) fails. -/
def envJacTraceFail : Env := { Env.allOk with jacTraceOk := false }

/-- Environment where both serialization tiers for the Jacobian trace fail
(but Jacobian tracing itself succeeds). -/
def envJacSaveFail : Env :=
  { Env.allOk with jacScriptOk := false, jacTraceSaveOk := false }

/-- Environment where the forward trace serialization fails. -/
def envFwdTraceFail : Env := { Env.allOk with fwdTraceOk := false }

/-- Environment where the gcc invocation exits non-zero. -/
def envGccFail : Env := { Env.allOk with gccOk := false }

/-! ## Helper lemmas about the pipeline -/

lemma template_has_jac_false (s : L4CasADi) (r c : Nat) (hh : Bool) :
    (generate_cpp_function_template s r c false hh).1.lookup ("has_jac") =
      some (.str ("false")) := rfl

lemma export_ok (env : Env) (wJ wH : Bool)
    (hf : env.fwdTraceOk = true) (hj : wJ = true → env.jacTraceOk = true) :
    (export_torch_traces env wJ wH).2 =
      .ok (wJ && (env.jacScriptOk || env.jacTraceSaveOk),
           wH && env.hessTraceOk && (env.hessScriptOk || env.hessTraceSaveOk)) := by
  cases env with
  | mk bde f jt js jv ht hs hv g l =>
    subst hf
    cases wJ with
    | false =>
      cases wH <;> cases ht <;> cases js <;> cases jv <;> cases hs <;> cases hv <;>
        simp [export_torch_traces, jit_compile_and_save]
    | true =>
      obtain rfl := hj rfl
      cases wH <;> cases ht <;> cases js <;> cases jv <;> cases hs <;> cases hv <;>
        simp [export_torch_traces, jit_compile_and_save]

lemma export_err_cases (env : Env) (wJ wH : Bool) (e : PyErr)
    (h : (export_torch_traces env wJ wH).2 = .error e) :
    e = .forwardTraceError ∨ e = .jacTraceError := by
  unfold export_torch_traces at h
  cases hf : env.fwdTraceOk with
  | false => simp [hf] at h; exact Or.inl h.symm
  | true =>
    cases hwj : wJ && !env.jacTraceOk with
    | false => simp [hf, hwj] at h
    | true => simp [hf, hwj] at h; exact Or.inr h.symm

lemma export_no_gcc (env : Env) (wJ wH : Bool) :
    (export_torch_traces env wJ wH).1.filter isGcc = [] := by
  cases env with
  | mk bde f jt js jv ht hs hv g l =>
    cases f <;> cases wJ <;> cases jt <;> cases js <;> cases jv <;>
      cases wH <;> cases ht <;> cases hs <;> cases hv <;> rfl

lemma export_no_fwd_script (env : Env) (wJ wH : Bool) :
    Eff.attemptScriptSave TK.fwd ∉ (export_torch_traces env wJ wH).1 := by
  cases env with
  | mk bde f jt js jv ht hs hv g l =>
    cases f <;> cases wJ <;> cases jt <;> cases js <;> cases jv <;>
      cases wH <;> cases ht <;> cases hs <;> cases hv <;>
      simp [export_torch_traces, jit_compile_and_save]

lemma generate_ok (s : L4CasADi) (env : Env) (r c : Nat)
    (hf : env.fwdTraceOk = true)
    (hj : s.with_jacobian = true → env.jacTraceOk = true) :
    (generate s env r c).2 =
      .ok (generate_cpp_function_template s r c
            (s.with_jacobian && (env.jacScriptOk || env.jacTraceSaveOk))
            (s.with_hessian && env.hessTraceOk &&
              (env.hessScriptOk || env.hessTraceSaveOk))) := by
  have h := export_ok env s.with_jacobian s.with_hessian hf hj
  simp only [generate]
  rw [h]

lemma generate_ok_template (s : L4CasADi) (env : Env) (r c : Nat)
    (res : List (String × GenValue) × String)
    (h : (generate s env r c).2 = .ok res) :
    ∃ a b, res = generate_cpp_function_template s r c a b := by
  simp only [generate] at h
  rcases hex : (export_torch_traces env s.with_jacobian s.with_hessian).2
    with e1 | r1
  · rw [hex] at h
    simp at h
  · obtain ⟨a, b⟩ := r1
    rw [hex] at h
    simp at h
    exact ⟨a, b, h.symm⟩

lemma generate_err_cases (s : L4CasADi) (env : Env) (r c : Nat) (e : PyErr)
    (h : (generate s env r c).2 = .error e) :
    e = .forwardTraceError ∨ e = .jacTraceError := by
  simp only [generate] at h
  rcases hex : (export_torch_traces env s.with_jacobian s.with_hessian).2 with e1 | r1
  · rw [hex] at h
    simp at h
    subst h
    exact export_err_cases env s.with_jacobian s.with_hessian e1 hex
  · rw [hex] at h
    obtain ⟨a, b⟩ := r1
    simp at h

lemma generate_no_gcc (s : L4CasADi) (env : Env) (r c : Nat) :
    (generate s env r c).1.filter isGcc = [] := by
  have h0 := export_no_gcc env s.with_jacobian s.with_hessian
  simp only [generate]
  rcases hex : (export_torch_traces env s.with_jacobian s.with_hessian).2 with e1 | r1
  · simpa using h0
  · obtain ⟨a, b⟩ := r1
    simp only [List.filter_append, h0]
    cases a <;> cases b <;> cases s.with_jacobian <;> cases s.with_hessian <;>
      simp [isGcc]

lemma generate_warnNoJac (s : L4CasADi) (env : Env) (r c : Nat)
    (hf : env.fwdTraceOk = true) (hwj : s.with_jacobian = true)
    (hjt : env.jacTraceOk = true)
    (hjs : env.jacScriptOk = false) (hjv : env.jacTraceSaveOk = false) :
    Eff.warnNoJac ∈ (generate s env r c).1 := by
  have h := export_ok env s.with_jacobian s.with_hessian hf (fun _ => hjt)
  simp only [generate]
  rw [h]
  simp [hwj, hjs, hjv]

lemma build_ok (s : L4CasADi) (env : Env) (p : Nat × Nat)
    (hn : s.naive = false)
    (hf : env.fwdTraceOk = true)
    (hj : s.with_jacobian = true → env.jacTraceOk = true)
    (hg : env.gccOk = true) :
    build s env p = ({ s with built := true },
      maybe_make_generation_dir env ++ (generate s env p.1 p.2).1 ++
        [Eff.runGcc true], none) := by
  have h := generate_ok s env p.1 p.2 hf hj
  simp only [build, hn, Bool.false_eq_true, if_false]
  rw [h]
  simp [compileStep, hg]

lemma build_none_state (s : L4CasADi) (env : Env) (p : Nat × Nat)
    (h : (build s env p).2.2 = none) :
    (build s env p).1 = { s with built := true } := by
  simp only [build] at h ⊢
  cases hn : s.naive with
  | true =>
    simp only [hn, if_true] at h ⊢
    cases hg : env.gccOk <;> simp [compileStep, hg] at h ⊢
  | false =>
    simp only [hn, Bool.false_eq_true, if_false] at h ⊢
    rcases hex : (generate s env p.1 p.2).2 with e1 | r1
    · rw [hex] at h
      simp at h
    · rw [hex] at h
      cases hg : env.gccOk <;> simp [compileStep, hg] at h ⊢

lemma build_some_state (s : L4CasADi) (env : Env) (p : Nat × Nat) (e : PyErr)
    (h : (build s env p).2.2 = some e) :
    (build s env p).1 = s := by
  simp only [build] at h ⊢
  cases hn : s.naive with
  | true =>
    simp only [hn, if_true] at h ⊢
    cases hg : env.gccOk <;> simp [compileStep, hg] at h ⊢
  | false =>
    simp only [hn, Bool.false_eq_true, if_false] at h ⊢
    rcases hex : (generate s env p.1 p.2).2 with e1 | r1
    · simp
    · rw [hex] at h
      cases hg : env.gccOk <;> simp [compileStep, hg] at h ⊢

lemma build_err_cases (s : L4CasADi) (env : Env) (p : Nat × Nat) (e : PyErr)
    (h : (build s env p).2.2 = some e) :
    e = .forwardTraceError ∨ e = .jacTraceError ∨ e = .compilationFailure := by
  simp only [build] at h
  cases hn : s.naive with
  | true =>
    simp only [hn, if_true] at h
    cases hg : env.gccOk <;> simp [compileStep, hg] at h
    exact Or.inr (Or.inr h.symm)
  | false =>
    simp only [hn, Bool.false_eq_true, if_false] at h
    rcases hex : (generate s env p.1 p.2).2 with e1 | r1
    · rw [hex] at h
      simp at h
      subst h
      rcases generate_err_cases s env p.1 p.2 e1 hex with h1 | h1
      · exact Or.inl h1
      · exact Or.inr (Or.inl h1)
    · rw [hex] at h
      cases hg : env.gccOk <;> simp [compileStep, hg] at h
      exact Or.inr (Or.inr h.symm)

lemma build_none_gcc (s : L4CasADi) (env : Env) (p : Nat × Nat)
    (hn : s.naive = false) (h : (build s env p).2.2 = none) :
    Eff.runGcc true ∈ (build s env p).2.1 := by
  simp only [build, hn, Bool.false_eq_true, if_false] at h ⊢
  rcases hex : (generate s env p.1 p.2).2 with e1 | r1
  · rw [hex] at h
    simp at h
  · rw [hex] at h
    cases hg : env.gccOk <;> simp [compileStep, hg] at h ⊢

lemma forward_ok (s : L4CasADi) (env : Env) (p : Nat × Nat)
    (hn : s.naive = false) (hb : s.built = false) (hcs : s.cs_fun = none)
    (hsh : s.has_batch = true → p.2 = 1)
    (hf : env.fwdTraceOk = true)
    (hj : s.with_jacobian = true → env.jacTraceOk = true)
    (hg : env.gccOk = true) (hl : env.loadOk = true) :
    (forward s env p).2.2 = .ok () ∧ (forward s env p).1.built = true ∧
    (forward s env p).1.cs_fun = some () ∧
    Eff.runGcc true ∈ (forward s env p).2.1 := by
  have hbatch : (s.has_batch && p.2 != 1) = false := by
    cases hsb : s.has_batch with
    | false => simp
    | true => simp [hsh hsb]
  have hbuild := build_ok s env p hn hf hj hg
  simp only [forward, hbatch, Bool.false_eq_true, if_false, hn, hb, Bool.not_false,
    if_true]
  rw [hbuild]
  simp [load_built_library, hcs, hl]

/-! ## Theorems -/

/-- C7: for every model with `model_expects_batch_dim` true, evaluating it on
any input whose trailing dimension is not 1 raises the configuration error
(Python `ValueError`) immediately: the state is unchanged, the effect list is
empty (no build step, no file I/O), and the error is `valueError`. -/
theorem batched_nonvector_rejected (s : L4CasADi) (env : Env) (p : Nat × Nat)
    (hb : s.has_batch = true) (hc : p.2 ≠ 1) :
    forward s env p = (s, [], .error .valueError) := by
  simp [forward, hb, hc]

/-- Witness for C7 at a concrete batched instance and a 2x2 input. -/
theorem batched_nonvector_rejected_witness :
    s0.has_batch = true ∧ (2, 2).2 ≠ 1 ∧
      forward s0 Env.allOk (2, 2) = (s0, [], .error .valueError) :=
  ⟨rfl, by decide, batched_nonvector_rejected s0 Env.allOk (2, 2) rfl (by decide)⟩

/-- C6: whenever Hessian tracing throws (`hessTraceOk = false`), the exception
is caught and never propagated — provided the unguarded earlier steps (forward
trace, and Jacobian tracing when requested) do not themselves throw, the export
returns normally with `exported_hess = false`, and no serialization of the
Hessian trace is ever attempted. -/
theorem hess_trace_failure_nonfatal (env : Env) (withJac withHess : Bool)
    (h1 : env.fwdTraceOk = true) (h2 : withJac = true → env.jacTraceOk = true)
    (h3 : env.hessTraceOk = false) :
    (export_torch_traces env withJac withHess).2 =
      .ok (withJac && (env.jacScriptOk || env.jacTraceSaveOk), false) ∧
    Eff.attemptScriptSave TK.hess ∉ (export_torch_traces env withJac withHess).1 ∧
    Eff.attemptTraceSave TK.hess ∉ (export_torch_traces env withJac withHess).1 := by
  cases env with
  | mk bde f jt js jv ht hs hv g l =>
    subst h1
    subst h3
    cases withJac with
    | false =>
      cases js <;> cases jv <;> cases withHess <;>
        simp [export_torch_traces, jit_compile_and_save]
    | true =>
      have hj : jt = true := h2 rfl
      subst hj
      cases js <;> cases jv <;> cases withHess <;>
        simp [export_torch_traces, jit_compile_and_save]

/-- C1 counterexample: with Jacobian export requested and Jacobian tracing
(`_trace_jac_model`) throwing — everything else succeeding — the exception
propagates out of `build` and `forward`: the build does not continue with
`hasJacobian = false`, contradicting the claim. -/
theorem c1_jac_trace_exception_propagates :
    (build s0 envJacTraceFail (2, 1)).2.2 = some PyErr.jacTraceError ∧
    (build s0 envJacTraceFail (2, 1)).1.built = false ∧
    (forward s0 envJacTraceFail (2, 1)).2.2 = .error PyErr.jacTraceError :=
  ⟨rfl, rfl, rfl⟩

/-- C1 (amended): if Jacobian *serialization* throws (both tiers of
`_jit_compile_and_save` fail), the build continues with `has_jac` rendered
`"false"`, a diagnostic is printed, and forward evaluation through the built
function still succeeds; an exception thrown by Jacobian *tracing* itself,
however, propagates to the caller. -/
theorem c1_jac_serialization_failure_nonfatal (s : L4CasADi) (env : Env)
    (p : Nat × Nat)
    (hn : s.naive = false) (hwj : s.with_jacobian = true)
    (hb : s.built = false) (hcs : s.cs_fun = none)
    (hf : env.fwdTraceOk = true) (hjt : env.jacTraceOk = true)
    (hjs : env.jacScriptOk = false) (hjv : env.jacTraceSaveOk = false)
    (hg : env.gccOk = true) (hl : env.loadOk = true)
    (hsh : s.has_batch = true → p.2 = 1) :
    (∀ r, (generate s env p.1 p.2).2 = .ok r →
      r.1.lookup ("has_jac") = some (.str ("false"))) ∧
    Eff.warnNoJac ∈ (generate s env p.1 p.2).1 ∧
    (build s env p).2.2 = none ∧
    (build s env p).1.built = true ∧
    (forward s env p).2.2 = .ok () := by
  have hj : s.with_jacobian = true → env.jacTraceOk = true := fun _ => hjt
  have hgen := generate_ok s env p.1 p.2 hf hj
  have hbuild := build_ok s env p hn hf hj hg
  have hfwd := forward_ok s env p hn hb hcs hsh hf hj hg hl
  refine ⟨?_, generate_warnNoJac s env p.1 p.2 hf hwj hjt hjs hjv, ?_, ?_, hfwd.1⟩
  · intro r hr
    rw [hgen] at hr
    have hr2 := Except.ok.inj hr
    subst hr2
    simp only [hwj, hjs, hjv, Bool.true_and, Bool.or_self]
    exact template_has_jac_false s p.1 p.2 _
  · rw [hbuild]
  · rw [hbuild]

/-- Witness for the amended C1: Jacobian serialization fails both tiers on a
fresh default instance; the build succeeds and forward evaluation works. -/
theorem c1_jac_serialization_failure_nonfatal_witness :
    s0.naive = false ∧ s0.with_jacobian = true ∧ s0.built = false ∧
    envJacSaveFail.fwdTraceOk = true ∧ envJacSaveFail.jacTraceOk = true ∧
    envJacSaveFail.jacScriptOk = false ∧ envJacSaveFail.jacTraceSaveOk = false ∧
    ((build s0 envJacSaveFail (2, 1)).2.2 = none ∧
      (build s0 envJacSaveFail (2, 1)).1.built = true ∧
      (forward s0 envJacSaveFail (2, 1)).2.2 = .ok ()) :=
  ⟨rfl, rfl, rfl, rfl, rfl, rfl, rfl,
    (c1_jac_serialization_failure_nonfatal s0 envJacSaveFail (2, 1)
        rfl rfl rfl rfl rfl rfl rfl rfl rfl rfl (fun _ => rfl)).2.2.1,
    (c1_jac_serialization_failure_nonfatal s0 envJacSaveFail (2, 1)
        rfl rfl rfl rfl rfl rfl rfl rfl rfl rfl (fun _ => rfl)).2.2.2.1,
    (c1_jac_serialization_failure_nonfatal s0 envJacSaveFail (2, 1)
        rfl rfl rfl rfl rfl rfl rfl rfl rfl rfl (fun _ => rfl)).2.2.2.2⟩

/-- C2 counterexample: the mandatory forward trace does NOT follow the
two-tier fallback — in a fully successful export no scripted serialization
is ever attempted for it (only a traced one), and failure of that single
traced serialization is immediately fatal rather than falling back. -/
theorem c2_forward_trace_single_tier :
    Eff.attemptScriptSave TK.fwd ∉ (export_torch_traces Env.allOk true true).1 ∧
    Eff.attemptTraceSave TK.fwd ∈ (export_torch_traces Env.allOk true true).1 ∧
    export_torch_traces envFwdTraceFail true true =
      ([.attemptTraceSave .fwd], .error .forwardTraceError) := by
  refine ⟨by decide, by decide, rfl⟩

/-- C2 (amended): the serialization of the optional Jacobian and Hessian
traces follows the two-tier fallback — scripting is attempted first, tracing
is attempted exactly when scripting fails, the result is available iff either
tier succeeded, and total failure returns False instead of raising; the
mandatory forward trace instead uses a single traced serialization, never a
scripted one, and its failure is fatal. -/
theorem c2_two_tier_fallback :
    (∀ (k : TK) (sOk tOk : Bool),
      (jit_compile_and_save k sOk tOk).2 = (sOk || tOk) ∧
      (jit_compile_and_save k sOk tOk).1.head? = some (.attemptScriptSave k) ∧
      (Eff.attemptTraceSave k ∈ (jit_compile_and_save k sOk tOk).1 ↔
        sOk = false)) ∧
    (∀ (env : Env) (wJ wH : Bool), env.fwdTraceOk = false →
      export_torch_traces env wJ wH =
        ([.attemptTraceSave .fwd], .error .forwardTraceError)) ∧
    (∀ (env : Env) (wJ wH : Bool),
      Eff.attemptScriptSave TK.fwd ∉ (export_torch_traces env wJ wH).1) := by
  refine ⟨by decide, ?_, export_no_fwd_script⟩
  intro env wJ wH hf
  simp [export_torch_traces, hf]

/-- Witness for the amended C2: concrete instantiation of the fatal
single-tier forward serialization. -/
theorem c2_two_tier_fallback_witness :
    envFwdTraceFail.fwdTraceOk = false ∧
    export_torch_traces envFwdTraceFail true true =
      ([.attemptTraceSave .fwd], .error .forwardTraceError) :=
  ⟨rfl, c2_two_tier_fallback.2.1 envFwdTraceFail true true rfl⟩

/-- C3 counterexample: calling `forward` on a freshly constructed non-naive
model that was never built does not fail with the "not built yet" error — it
silently performs a full build (gcc is invoked) and evaluation succeeds. -/
theorem c3_forward_silently_builds :
    s0.built = false ∧ s0.naive = false ∧
    (forward s0 Env.allOk (3, 1)).2.2 = .ok () ∧
    (forward s0 Env.allOk (3, 1)).1.built = true ∧
    Eff.runGcc true ∈ (forward s0 Env.allOk (3, 1)).2.1 :=
  ⟨rfl, rfl, rfl, rfl, by decide⟩

/-- C3 (amended): `forward` on a non-naive, not-yet-built model never raises
the "not built yet" `RuntimeError` — it performs the build itself (when the
build succeeds, the resulting state is built and the toolchain was invoked);
that `RuntimeError` is raised only when the internal loader
`_load_built_library_as_external_cs_fun` is invoked directly before any
build. -/
theorem c3_forward_autobuilds (s : L4CasADi) (env : Env) (p : Nat × Nat)
    (hn : s.naive = false) (hb : s.built = false) :
    (forward s env p).2.2 ≠ .error .notBuiltYet ∧
    load_built_library s env = (s, [], some .notBuiltYet) ∧
    ((s.has_batch = true → p.2 = 1) → (build s env p).2.2 = none →
      (forward s env p).1.built = true ∧
      Eff.runGcc true ∈ (forward s env p).2.1) := by
  refine ⟨?_, by simp [load_built_library, hb], ?_⟩
  · cases hbc : (s.has_batch && p.2 != 1) with
    | true => simp [forward, hbc]
    | false =>
      simp only [forward, hbc, Bool.false_eq_true, if_false, hn, hb,
        Bool.not_false, if_true]
      rcases hbb : (build s env p).2.2 with _ | e
      · have hst := build_none_state s env p hbb
        rw [hst]
        cases hcsf : s.cs_fun with
        | some u => simp
        | none =>
          cases hl : env.loadOk <;> simp [load_built_library, hl]
      · rcases build_err_cases s env p e hbb with rfl | rfl | rfl <;> simp
  · intro hsh hnone
    have hbc : (s.has_batch && p.2 != 1) = false := by
      cases hsb : s.has_batch with
      | false => simp
      | true => simp [hsh hsb]
    have hst := build_none_state s env p hnone
    have hgc := build_none_gcc s env p hn hnone
    simp only [forward, hbc, Bool.false_eq_true, if_false, hn, hb,
      Bool.not_false, if_true]
    rw [hnone, hst]
    cases hcsf : s.cs_fun with
    | some u => simp [hst, hgc]
    | none =>
      cases hl : env.loadOk <;>
        simp [load_built_library, hst, hgc, hl, List.mem_append]

/-- Witness for the amended C3 on a fresh default instance. -/
theorem c3_forward_autobuilds_witness :
    s0.naive = false ∧ s0.built = false ∧
    (forward s0 Env.allOk (3, 1)).2.2 ≠ .error PyErr.notBuiltYet ∧
    load_built_library s0 Env.allOk = (s0, [], some PyErr.notBuiltYet) ∧
    (build s0 Env.allOk (3, 1)).2.2 = none ∧
    ((forward s0 Env.allOk (3, 1)).1.built = true ∧
      Eff.runGcc true ∈ (forward s0 Env.allOk (3, 1)).2.1) :=
  ⟨rfl, rfl, (c3_forward_autobuilds s0 Env.allOk (3, 1) rfl rfl).1,
    (c3_forward_autobuilds s0 Env.allOk (3, 1) rfl rfl).2.1, rfl,
    (c3_forward_autobuilds s0 Env.allOk (3, 1) rfl rfl).2.2 (fun _ => rfl) rfl⟩

/-- C4 counterexample: building a naive model DOES invoke the toolchain —
gcc runs (without `-ll4casadi`) and on success a shared library is produced
and the state becomes built, contradicting "no toolchain invocation ever
occurs". -/
theorem c4_naive_build_invokes_toolchain :
    sNaive.naive = true ∧
    Eff.runGcc false ∈ (build sNaive Env.allOk (2, 1)).2.1 ∧
    (build sNaive Env.allOk (2, 1)).2.2 = none ∧
    (build sNaive Env.allOk (2, 1)).1.built = true :=
  ⟨rfl, by decide, rfl, rfl⟩

/-- C4 (amended): building a naive model persists the casadi-generated
symbolic source as a standalone artifact and then still compiles it: the
effects are exactly mkdir-if-needed, the casadi codegen, and one gcc
invocation that omits `-ll4casadi`; no torch trace is exported; the build
succeeds iff gcc exits 0, and then the state is built. -/
theorem c4_naive_build (s : L4CasADi) (env : Env) (p : Nat × Nat)
    (hn : s.naive = true) :
    (build s env p).2.1 =
      maybe_make_generation_dir env ++ [Eff.casadiGenCpp, Eff.runGcc false] ∧
    Eff.runGcc true ∉ (build s env p).2.1 ∧
    Eff.attemptTraceSave TK.fwd ∉ (build s env p).2.1 ∧
    ((build s env p).2.2 = none ↔ env.gccOk = true) ∧
    (env.gccOk = true → (build s env p).1.built = true) := by
  cases hg : env.gccOk <;> cases hbd : env.buildDirExists <;>
    simp [build, hn, compileStep, hg, maybe_make_generation_dir, hbd]

/-- Witness for the amended C4 on a concrete naive instance. -/
theorem c4_naive_build_witness :
    sNaive.naive = true ∧
    ((build sNaive Env.allOk (2, 1)).2.1 =
        maybe_make_generation_dir Env.allOk ++
          [Eff.casadiGenCpp, Eff.runGcc false] ∧
      Eff.runGcc true ∉ (build sNaive Env.allOk (2, 1)).2.1 ∧
      Eff.attemptTraceSave TK.fwd ∉ (build sNaive Env.allOk (2, 1)).2.1 ∧
      ((build sNaive Env.allOk (2, 1)).2.2 = none ↔ Env.allOk.gccOk = true) ∧
      (Env.allOk.gccOk = true → (build sNaive Env.allOk (2, 1)).1.built = true)) :=
  ⟨rfl, c4_naive_build sNaive Env.allOk (2, 1) rfl⟩

/-- C5 counterexample: after a CompilationFailure the handle is NOT
permanently failed — calling `build` again on the very same instance under a
then-working toolchain retries the compilation and reaches the Built
state. -/
theorem c5_failed_build_can_rebuild :
    (build s0 envGccFail (2, 1)).2.2 = some PyErr.compilationFailure ∧
    (build s0 envGccFail (2, 1)).1.built = false ∧
    (build (build s0 envGccFail (2, 1)).1 Env.allOk (2, 1)).2.2 = none ∧
    (build (build s0 envGccFail (2, 1)).1 Env.allOk (2, 1)).1.built = true ∧
    Eff.runGcc true ∈
      (build (build s0 envGccFail (2, 1)).1 Env.allOk (2, 1)).2.1 :=
  ⟨rfl, rfl, rfl, rfl, by decide⟩

/-- C5 (amended): a CompilationFailure aborts the failing `build` call with
the instance state unchanged (in particular it is not Built by that call),
and within that single pipeline run the toolchain is invoked at most once —
there is no automatic retry; only a subsequent explicit `build`/`forward`
call re-attempts compilation. -/
theorem c5_compilation_failure_aborts (s : L4CasADi) (env : Env)
    (p : Nat × Nat) (hg : env.gccOk = false) :
    (build s env p).1 = s ∧
    (build s env p).2.2 ≠ none ∧
    ((build s env p).2.1.filter isGcc).length ≤ 1 := by
  cases hn : s.naive with
  | true =>
    cases hbd : env.buildDirExists <;>
      simp [build, hn, compileStep, hg, maybe_make_generation_dir, hbd, isGcc]
  | false =>
    have hng := generate_no_gcc s env p.1 p.2
    simp only [build, hn, Bool.false_eq_true, if_false]
    rcases hex : (generate s env p.1 p.2).2 with e1 | r1
    · refine ⟨by simp, by simp, ?_⟩
      cases hbd : env.buildDirExists <;>
        simp [maybe_make_generation_dir, hbd, List.filter_append, hng, isGcc]
    · refine ⟨by simp [compileStep, hg], by simp [compileStep, hg], ?_⟩
      cases hbd : env.buildDirExists <;>
        simp [compileStep, hg, maybe_make_generation_dir, hbd,
          List.filter_append, hng, isGcc]

/-- Witness for the amended C5: failing toolchain on a fresh instance. -/
theorem c5_compilation_failure_aborts_witness :
    envGccFail.gccOk = false ∧
    ((build s0 envGccFail (2, 1)).1 = s0 ∧
      (build s0 envGccFail (2, 1)).2.2 ≠ none ∧
      ((build s0 envGccFail (2, 1)).2.1.filter isGcc).length ≤ 1) :=
  ⟨rfl, c5_compilation_failure_aborts s0 envGccFail (2, 1) rfl⟩

/-- Witness for C6: Hessian tracing fails, everything else succeeds. -/
theorem hess_trace_failure_nonfatal_witness :
    ({ Env.allOk with hessTraceOk := false } : Env).fwdTraceOk = true ∧
    ({ Env.allOk with hessTraceOk := false } : Env).hessTraceOk = false ∧
    ((export_torch_traces { Env.allOk with hessTraceOk := false } true true).2 =
        .ok (true, false) ∧
      Eff.attemptScriptSave TK.hess ∉
        (export_torch_traces { Env.allOk with hessTraceOk := false } true true).1 ∧
      Eff.attemptTraceSave TK.hess ∉
        (export_torch_traces { Env.allOk with hessTraceOk := false } true true).1) :=
  ⟨rfl, rfl,
    hess_trace_failure_nonfatal { Env.allOk with hessTraceOk := false } true true
      rfl (fun _ => rfl) rfl⟩

/-- C8: for every probe input of shape (r, c), the rendered `rows_in` and
`cols_in` are exactly (r, c); and the rendered output dims are derived by
evaluating the model on a zero-filled probe — `torch.zeros(1, r)` (a batch
axis of size 1 and the input length) when `model_expects_batch_dim` is true,
else `torch.zeros(r, c)` of exactly the input shape — and depend on the
model only through the shape of that probe evaluation. -/
theorem c8_shape_inference (s : L4CasADi) (env : Env) (r c : Nat) :
    (∀ res, (generate s env r c).2 = .ok res →
      res.1.lookup ("rows_in") = some (.nat r) ∧
      res.1.lookup ("cols_in") = some (.nat c)) ∧
    probe_out_dims s r c =
      probeDimsSpec s.has_batch
        ((s.model (torch_zeros (if s.has_batch then [1, r] else [r, c]))).shape) ∧
    (∀ (hj hh : Bool),
      (generate_cpp_function_template s r c hj hh).1.lookup ("rows_out") =
        some (.nat (probe_out_dims s r c).1) ∧
      (generate_cpp_function_template s r c hj hh).1.lookup ("cols_out") =
        some (.nat (probe_out_dims s r c).2)) := by
  refine ⟨?_, ?_, fun hj hh => ⟨rfl, rfl⟩⟩
  · intro res hres
    obtain ⟨a, b, rfl⟩ := generate_ok_template s env r c res hres
    exact ⟨rfl, rfl⟩
  · cases hsb : s.has_batch <;>
      simp [probe_out_dims, probeDimsSpec, hsb]

/-- Witness for C8: batched default instance, probe shape (2, 1). -/
theorem c8_shape_inference_witness :
    (generate s0 Env.allOk 2 1).2 =
      .ok (generate_cpp_function_template s0 2 1 true true) ∧
    ((generate_cpp_function_template s0 2 1 true true).1.lookup ("rows_in") =
        some (.nat 2) ∧
      (generate_cpp_function_template s0 2 1 true true).1.lookup ("cols_in") =
        some (.nat 1)) ∧
    probe_out_dims s0 2 1 =
      probeDimsSpec s0.has_batch
        ((s0.model (torch_zeros (if s0.has_batch then [1, 2] else [2, 1]))).shape) :=
  ⟨rfl,
    (c8_shape_inference s0 Env.allOk 2 1).1
      (generate_cpp_function_template s0 2 1 true true) rfl,
    (c8_shape_inference s0 Env.allOk 2 1).2.1⟩

/-- C9: the substitution dictionary built by `_generate_cpp_function_template`
has exactly the fixed key set `model_path, device, name, rows_in, cols_in,
rows_out, cols_out, has_jac, has_hess, model_expects_batch_dim` (in order),
the boolean-valued keys are rendered as the literal strings "true"/"false",
and the render target of every non-naive generation is
`<build_dir>/<name>.cpp`. -/
theorem c9_template_substitution (s : L4CasADi) (rows cols : Nat)
    (has_jac has_hess : Bool) :
    ((generate_cpp_function_template s rows cols has_jac has_hess).1.map
        Prod.fst = genParamKeys) ∧
    ((generate_cpp_function_template s rows cols has_jac has_hess).1.lookup
        ("has_jac") = some (.str (if has_jac then "true" else "false"))) ∧
    ((generate_cpp_function_template s rows cols has_jac has_hess).1.lookup
        ("has_hess") = some (.str (if has_hess then "true" else "false"))) ∧
    ((generate_cpp_function_template s rows cols has_jac has_hess).1.lookup
        ("model_expects_batch_dim") =
        some (.str (if s.has_batch then "true" else "false"))) ∧
    ((generate_cpp_function_template s rows cols has_jac has_hess).2 =
        s.build_dir ++ "/" ++ s.name ++ ".cpp") ∧
    (∀ (env : Env) res, (generate s env rows cols).2 = .ok res →
      res.1.map Prod.fst = genParamKeys ∧
      res.2 = s.build_dir ++ "/" ++ s.name ++ ".cpp") := by
  refine ⟨rfl, rfl, rfl, rfl, rfl, ?_⟩
  intro env res hres
  obtain ⟨a, b, rfl⟩ := generate_ok_template s env rows cols res hres
  exact ⟨rfl, rfl⟩

/-- Witness for C9: concrete non-naive generation under the all-succeeding
environment renders into the default build dir under the default name. -/
theorem c9_template_substitution_witness :
    (generate s0 Env.allOk 2 1).2 =
      .ok (generate_cpp_function_template s0 2 1 true true) ∧
    ((generate_cpp_function_template s0 2 1 true true).1.map Prod.fst =
        genParamKeys ∧
      (generate_cpp_function_template s0 2 1 true true).2 =
        s0.build_dir ++ "/" ++ s0.name ++ ".cpp") :=
  ⟨rfl,
    (c9_template_substitution s0 2 1 true true).2.2.2.2.2 Env.allOk
      (generate_cpp_function_template s0 2 1 true true) rfl⟩

/-- C10: in non-batch mode, a 1-dimensional probed model output of length n
renders `rows_out = n`, `cols_out = 1`; a probed output with 2 or more
dimensions renders `rows_out`, `cols_out` as its last two dimensions. -/
theorem c10_nonbatch_out_dims (s : L4CasADi) (r c : Nat)
    (hnb : s.has_batch = false) :
    (∀ n, (s.model (torch_zeros [r, c])).shape = [n] →
      probe_out_dims s r c = (n, 1)) ∧
    (∀ (l : List Nat) (a b : Nat),
      (s.model (torch_zeros [r, c])).shape = l ++ [a, b] →
      probe_out_dims s r c = (a, b)) := by
  constructor
  · intro n hsh
    simp [probe_out_dims, hnb, hsh]
  · intro l a b hsh
    simp only [probe_out_dims, hnb, Bool.false_eq_true, if_false, hsh]
    rw [if_neg]
    · simp [List.reverse_append]
    · simp [List.length_append]

/-- Witness for C10: a 1-D output of length 5 gives (5, 1); a 4 x 3 x 2
output gives (3, 2). -/
theorem c10_nonbatch_out_dims_witness :
    sVec.has_batch = false ∧
    (sVec.model (torch_zeros [3, 2])).shape = [5] ∧
    probe_out_dims sVec 3 2 = (5, 1) ∧
    (sMat.model (torch_zeros [3, 2])).shape = [4] ++ [3, 2] ∧
    probe_out_dims sMat 3 2 = (3, 2) :=
  ⟨rfl, rfl, (c10_nonbatch_out_dims sVec 3 2 rfl).1 5 rfl, rfl,
    (c10_nonbatch_out_dims sMat 3 2 rfl).2 [4] 3 2 rfl⟩

end L4C
